import Mathlib

/-!
Shallow embedding of the voizMatebk webhook handlers.

The repository contains four revisions of a webhook endpoint that turns a
voice-call completion event into an email notification:
  * `src/unnamed/part_000` (two revisions of a flat-shape "vapi" handler;
    we embed the second revision, lines 613-1141, whose handler/`sendEmail`
    are the ones the claims cite),
  * `src/pages/api/retell-webhook.js` revision 1 (envelope shape
    `{event, call}`, lines 1-546) and revision 2 (metadata shape
    `{call_metadata}`, lines 546-700),
  * `src/unnamed/part_001` (envelope shape, first-contact recipient).

Modelling conventions:
  * A JavaScript field value is a `JSVal α`: `undef` (absent/`undefined`),
    `null`, or `val a`.  Truthiness follows JS: `undefined`/`null` are
    falsy, a string is falsy iff empty, a number is falsy iff `0`, an
    object is always truthy.
  * JS numbers that hold money amounts are modelled as integer counts of
    cents, so `Number.prototype.toFixed(2)` is exact on them.
  * `new Date(x).toLocaleString()` under the fixed process locale/timezone
    is modelled by the abstract function `Env.dateLocaleString` (the
    handlers never branch on its output).
  * The outcome of the two external effects — reading
    `data/contacts.json` and `transporter.sendMail` — is passed in as an
    explicit parameter (`Except`), and a handler's result records the
    response produced and the mail message given to `sendMail`, if any.
  * Logging (`log(...)`, `trackCallStatus`) has no observable effect on
    responses or dispatch and is omitted.
-/

namespace VoizMate

/-- A JavaScript field value: absent/`undefined`, `null`, or a value. -/
inductive JSVal (α : Type) : Type
  | undef : JSVal α
  | null : JSVal α
  | val : α → JSVal α
deriving DecidableEq

/-- JS truthiness of a string-typed value: falsy iff `undefined`, `null`
or the empty string. -/
def strTruthy : JSVal String → Bool
  | .val s => s ≠ ""
  | _ => false

/-- JS truthiness of an object-typed value: any object is truthy. -/
def objTruthy {α : Type} : JSVal α → Bool
  | .val _ => true
  | _ => false

/-- JS truthiness of a number-typed value: falsy iff `undefined`, `null`
or `0` (`undefined` would be `NaN` in arithmetic, also falsy). -/
def numTruthy : JSVal Nat → Bool
  | .val n => n ≠ 0
  | _ => false

/-- Template-literal interpolation of a string-typed JS value
(`undefined` and `null` print as their names). -/
def jsInterp : JSVal String → String
  | .undef => "undefined"
  | .null => "null"
  | .val s => s

/-- Template-literal interpolation of a number-typed JS value. -/
def jsInterpNat : JSVal Nat → String
  | .undef => "undefined"
  | .null => "null"
  | .val n => toString n

/-- JS `x || dflt` on a string-typed value. -/
def jsOr (x : JSVal String) (dflt : String) : String :=
  match x with
  | .val s => if s = "" then dflt else s
  | _ => dflt

/-- JS strict equality `s === x` between a plain string and a
string-typed JS value. -/
def jsStrEq (s : String) : JSVal String → Bool
  | .val t => s = t
  | _ => false

/-- Truthiness of a `process.env` variable (`undefined` or empty ⇒ falsy). -/
def optTruthy : Option String → Bool
  | some s => s ≠ ""
  | none => false

/-- Template interpolation of a `process.env` variable. -/
def optInterp : Option String → String
  | some s => s
  | none => "undefined"

/-- One entry of `data/contacts.json` as read by the handlers that match on
the `number` field.  An email absent from the JSON is modelled as the empty
string: both are falsy and the code only tests truthiness. -/
structure Contact : Type where
  name : String
  number : String
  email : String
deriving DecidableEq

/-- One entry of `data/contacts.json` as read by the `call_metadata`
revision, which matches on the `phone` field. -/
structure PContact : Type where
  name : String
  phone : String
  email : String
deriving DecidableEq

/-- The value nodemailer's `sendMail` resolves with. -/
structure MailInfo : Type where
  messageId : String
  accepted : List String
  rejected : List String
deriving DecidableEq

/-- The message object handed to `transporter.sendMail`. -/
structure MailMsg : Type where
  «from» : String
  «to» : String
  subject : String
  text : String
  html : Option String

/-- Process-wide configuration: the Gmail environment variables, the
computed `DEFAULT_EMAIL` constant (`process.env.DEFAULT_EMAIL ||
'your-default-email@example.com'`), and the fixed-locale date renderer. -/
structure Env : Type where
  gmailClientId : Option String
  gmailClientSecret : Option String
  gmailRefreshToken : Option String
  gmailEmail : Option String
  defaultEmail : String
  dateLocaleString : JSVal String → String

/-- `validateGmailConfig`: every required Gmail environment variable must
be truthy. -/
def gmailConfigOk (env : Env) : Bool :=
  optTruthy env.gmailClientId && optTruthy env.gmailClientSecret &&
    optTruthy env.gmailRefreshToken && optTruthy env.gmailEmail

/-- The distinct JSON responses the four handlers can produce. -/
inductive Resp : Type
  | preflight : Resp
  | usage : Resp
  | methodNotAllowed : Resp
  | missingFields : Resp
  | notProcessed : Resp
  | emailSent : MailInfo → Resp
  | metaSent : String → String → Resp
  | p1Sent : String → String → Resp
  | emailFailed : String → Resp
  | dirFailed : Resp
  | contactNotFound : Resp
  | noContacts : Resp
deriving DecidableEq

/-- The HTTP status code attached to each response. -/
def Resp.status : Resp → Nat
  | .preflight => 200
  | .usage => 200
  | .methodNotAllowed => 405
  | .missingFields => 400
  | .notProcessed => 200
  | .emailSent _ => 200
  | .metaSent _ _ => 200
  | .p1Sent _ _ => 200
  | .emailFailed _ => 500
  | .dirFailed => 500
  | .contactNotFound => 404
  | .noContacts => 500

/-- The observable outcome of one request: the response returned and the
message given to `transporter.sendMail`, when that call happened. -/
structure HandlerResult : Type where
  resp : Resp
  sent : Option MailMsg

/-- The observable outcome of one `sendEmail` invocation. -/
structure SendResult : Type where
  outcome : Except String MailInfo
  sent : Option MailMsg

/-- `formatDuration` (identical in every revision):
`Math.floor(ms/1000)` seconds split at 60.  JS coercion: an `undefined`
argument makes every arithmetic step `NaN`, which prints as `NaN`; a
`null` argument coerces to `0`. -/
def formatDuration : JSVal Nat → String
  | .undef => "NaNm NaNs"
  | .null => "0m 0s"
  | .val ms =>
    let seconds := ms / 1000
    let minutes := seconds / 60
    let remainingSeconds := seconds % 60
    toString minutes ++ "m " ++ toString remainingSeconds ++ "s"

/-- `formatCost`: `"$" + cost.toFixed(2)`, on a cost given in cents. -/
def formatCost (cents : Nat) : String :=
  "$" ++ toString (cents / 100) ++ "." ++
    (if cents % 100 < 10 then "0" else "") ++ toString (cents % 100)

/-- `formatTimestamp`: `new Date(timestamp).toLocaleString()` under the
fixed process locale, modelled abstractly. -/
def formatTimestamp (env : Env) (t : JSVal String) : String :=
  env.dateLocaleString t

/-- The recipient-resolution block of `sendEmail`
(`src/unnamed/part_000` lines 921-935, `retell-webhook.js` lines 238-252):
start from `DEFAULT_EMAIL`; when the caller number is truthy and the
directory is nonempty, `contacts.find(c => c.number === callerNumber)`;
use the contact's email only when the contact matched and its email is
truthy. -/
def resolveRecipient (defaultEmail : String) (callerNumber : JSVal String)
    (contacts : List Contact) : String :=
  if strTruthy callerNumber && contacts.length > 0 then
    match contacts.find? (fun c => jsStrEq c.number callerNumber) with
    | some contact =>
      if contact.email ≠ "" then contact.email else defaultEmail
    | none => defaultEmail
  else defaultEmail

end VoizMate

namespace VoizMate

/-- The flat-shape ("vapi") call record, `req.body` of the
`src/unnamed/part_000` handler. -/
structure VapiCall : Type where
  id : JSVal String
  status : JSVal String
  startTime : JSVal String
  endTime : JSVal String
  duration : JSVal Nat
  «from» : JSVal String
  «to» : JSVal String
  error : JSVal String
  transcript : JSVal String
  recordingUrl : JSVal String
  summary : JSVal String
  cost : JSVal Nat
deriving DecidableEq

/-- `${error ? `Error: ${error}` : ''}` in the plain-text template. -/
def vapiErrorLine (call : VapiCall) : String :=
  if strTruthy call.error then "Error: " ++ jsInterp call.error else ""

/-- `${summary ? ... : ''}` in the plain-text template
(`src/unnamed/part_000` lines 807-811). -/
def vapiSummarySection (call : VapiCall) : String :=
  if strTruthy call.summary then
    "\n📊 Call Summary\n--------------\n" ++ jsInterp call.summary ++ "\n"
  else ""

/-- `${cost ? ... : ''}` in the plain-text template (lines 813-817). -/
def vapiCostSection (call : VapiCall) : String :=
  match call.cost with
  | .val c =>
    if c = 0 then ""
    else "\n💰 Cost\n-------\nTotal Cost: " ++ formatCost c ++ "\n"
  | _ => ""

/-- `${transcript ? ... : ''}` in the plain-text template (lines 819-823). -/
def vapiTranscriptSection (call : VapiCall) : String :=
  if strTruthy call.transcript then
    "\n📝 Transcript\n-----------\n" ++ jsInterp call.transcript ++ "\n"
  else ""

/-- `${recordingUrl ? ... : ''}` in the plain-text template (lines 825-829). -/
def vapiRecordingSection (call : VapiCall) : String :=
  if strTruthy call.recordingUrl then
    "\n🔗 Recording\n----------\n" ++ jsInterp call.recordingUrl ++ "\n"
  else ""

/-- `formatEmailContent` of `src/unnamed/part_000` (lines 775-834): the
plain-text report, one template literal. -/
def formatEmailContent (env : Env) (call : VapiCall) : String :=
  "\n📞 Call Summary\n==============\n\n📋 Call Details\n--------------\n" ++
  "From: " ++ optInterp env.gmailEmail ++ "\n" ++
  "Caller: " ++ jsOr call.«from» "Unknown" ++ "\n" ++
  "Recipient: " ++ jsOr call.«to» "Unknown" ++ "\n" ++
  "Call ID: " ++ jsInterp call.id ++ "\n" ++
  "Status: " ++ jsInterp call.status ++ "\n" ++
  "Duration: " ++ formatDuration call.duration ++ "\n" ++
  "Started: " ++ formatTimestamp env call.startTime ++ "\n" ++
  "Ended: " ++ formatTimestamp env call.endTime ++ "\n" ++
  vapiErrorLine call ++ "\n\n" ++
  vapiSummarySection call ++ "\n\n" ++
  vapiCostSection call ++ "\n\n" ++
  vapiTranscriptSection call ++ "\n\n" ++
  vapiRecordingSection call ++ "\n\n" ++
  "---\nThis is an automated message from your Vapi AI Assistant.\n"

/-- `${error ? `<p><strong>Error:</strong> ${error}</p>` : ''}` in the
HTML template. -/
def vapiErrorLineHtml (call : VapiCall) : String :=
  if strTruthy call.error then
    "<p><strong>Error:</strong> " ++ jsInterp call.error ++ "</p>"
  else ""

/-- `${summary ? ... : ''}` in the HTML template (lines 870-875). -/
def vapiSummarySectionHtml (call : VapiCall) : String :=
  if strTruthy call.summary then
    "\n      <div style=\"background: #f8f9fa; padding: 15px; border-radius: 5px; margin-bottom: 20px;\">\n        <h2 style=\"color: #34495e;\">📊 Call Summary</h2>\n        <p>" ++
      jsInterp call.summary ++ "</p>\n      </div>\n      "
  else ""

/-- `${cost ? ... : ''}` in the HTML template (lines 877-882). -/
def vapiCostSectionHtml (call : VapiCall) : String :=
  match call.cost with
  | .val c =>
    if c = 0 then ""
    else
      "\n      <div style=\"background: #f8f9fa; padding: 15px; border-radius: 5px; margin-bottom: 20px;\">\n        <h2 style=\"color: #34495e;\">💰 Cost</h2>\n        <p><strong>Total Cost:</strong> " ++
        formatCost c ++ "</p>\n      </div>\n      "
  | _ => ""

/-- `${transcript ? ... : ''}` in the HTML template (lines 884-889). -/
def vapiTranscriptSectionHtml (call : VapiCall) : String :=
  if strTruthy call.transcript then
    "\n      <div style=\"background: #f8f9fa; padding: 15px; border-radius: 5px; margin-bottom: 20px;\">\n        <h2 style=\"color: #34495e;\">📝 Transcript</h2>\n        <pre style=\"white-space: pre-wrap;\">" ++
      jsInterp call.transcript ++ "</pre>\n      </div>\n      "
  else ""

/-- `${recordingUrl ? ... : ''}` in the HTML template (lines 891-896). -/
def vapiRecordingSectionHtml (call : VapiCall) : String :=
  if strTruthy call.recordingUrl then
    "\n      <div style=\"background: #f8f9fa; padding: 15px; border-radius: 5px;\">\n        <h2 style=\"color: #34495e;\">🔗 Recording</h2>\n        <p><a href=\"" ++
      jsInterp call.recordingUrl ++
      "\">Listen to Recording</a></p>\n      </div>\n      "
  else ""

/-- `formatEmailContentHtml` of `src/unnamed/part_000` (lines 837-902):
the HTML report, one template literal. -/
def formatEmailContentHtml (env : Env) (call : VapiCall) : String :=
  "\n    <div style=\"font-family: Arial, sans-serif; max-width: 600px; margin: 0 auto;\">\n      <h1 style=\"color: #2c3e50;\">📞 Call Summary</h1>\n      \n      <div style=\"background: #f8f9fa; padding: 15px; border-radius: 5px; margin-bottom: 20px;\">\n        <h2 style=\"color: #34495e;\">📋 Call Details</h2>\n        <p><strong>From:</strong> " ++
  optInterp env.gmailEmail ++ "</p>\n        <p><strong>Caller:</strong> " ++
  jsOr call.«from» "Unknown" ++ "</p>\n        <p><strong>Recipient:</strong> " ++
  jsOr call.«to» "Unknown" ++ "</p>\n        <p><strong>Call ID:</strong> " ++
  jsInterp call.id ++ "</p>\n        <p><strong>Status:</strong> " ++
  jsInterp call.status ++ "</p>\n        <p><strong>Duration:</strong> " ++
  formatDuration call.duration ++ "</p>\n        <p><strong>Started:</strong> " ++
  formatTimestamp env call.startTime ++ "</p>\n        <p><strong>Ended:</strong> " ++
  formatTimestamp env call.endTime ++ "</p>\n        " ++
  vapiErrorLineHtml call ++ "\n      </div>\n\n      " ++
  vapiSummarySectionHtml call ++ "\n\n      " ++
  vapiCostSectionHtml call ++ "\n\n      " ++
  vapiTranscriptSectionHtml call ++ "\n\n      " ++
  vapiRecordingSectionHtml call ++
  "\n\n      <hr style=\"margin: 20px 0;\">\n      <p style=\"color: #7f8c8d; font-size: 12px;\">This is an automated message from your Vapi AI Assistant.</p>\n    </div>\n  "

/-- `sendEmail` of `src/unnamed/part_000` (lines 905-978): degrade a
failed directory read to an empty list, resolve the recipient, reject a
recipient without `@`, build the report, require a valid Gmail
configuration (`createTransporter` throws otherwise), then hand the
message to the transport, whose outcome is the `transport` parameter. -/
def sendEmail (env : Env) (call : VapiCall)
    (dir : Except String (List Contact))
    (transport : Except String MailInfo) : SendResult :=
  let contacts : List Contact := match dir with
    | .ok cs => cs
    | .error _ => []
  let recipientEmail := resolveRecipient env.defaultEmail call.«from» contacts
  if recipientEmail = "" ∨ ¬ recipientEmail.contains '@' then
    ⟨.error "Invalid recipient email address", none⟩
  else if ¬ gmailConfigOk env then
    ⟨.error "Invalid Gmail configuration", none⟩
  else
    let msg : MailMsg :=
      ⟨optInterp env.gmailEmail, recipientEmail,
        "Call Summary - " ++ jsInterp call.id,
        formatEmailContent env call,
        some (formatEmailContentHtml env call)⟩
    match transport with
    | .ok info => ⟨.ok info, some msg⟩
    | .error e => ⟨.error e, some msg⟩

/-- The `src/unnamed/part_000` handler (lines 980-1141): OPTIONS
preflight → 200; GET → 200 usage document; other non-POST → 405; missing
`id`/`status` → 400; status other than `'completed'` → 200 "received but
not processed"; otherwise `sendEmail`, 200 on success, 500 on failure. -/
def vapiHandler (env : Env) (method : String) (call : VapiCall)
    (dir : Except String (List Contact))
    (transport : Except String MailInfo) : HandlerResult :=
  if method = "OPTIONS" then ⟨.preflight, none⟩
  else if method = "GET" then ⟨.usage, none⟩
  else if method ≠ "POST" then ⟨.methodNotAllowed, none⟩
  else if ¬ (strTruthy call.id && strTruthy call.status) then
    ⟨.missingFields, none⟩
  else if call.status ≠ JSVal.val "completed" then ⟨.notProcessed, none⟩
  else
    let r := sendEmail env call dir transport
    match r.outcome with
    | .ok info => ⟨.emailSent info, r.sent⟩
    | .error e => ⟨.emailFailed e, r.sent⟩

end VoizMate

namespace VoizMate

/-- One entry of `call_cost.product_costs` (Retell shape).  The provider
schema always sends the list together with `call_cost`. -/
structure ProductCost : Type where
  product : String
  cost : Nat
deriving DecidableEq

/-- The Retell `call_cost` object; money in cents. -/
structure CallCost : Type where
  combined_cost : Nat
  total_duration_unit_price : Nat
  product_costs : List ProductCost
deriving DecidableEq

/-- The Retell `call_analysis` object. -/
structure CallAnalysis : Type where
  call_summary : JSVal String
  user_sentiment : JSVal String
  call_successful : Bool
  in_voicemail : Bool
deriving DecidableEq

/-- The Retell envelope's `call` object. -/
structure RetellCall : Type where
  call_id : JSVal String
  call_type : JSVal String
  call_status : JSVal String
  duration_ms : JSVal Nat
  transcript : JSVal String
  recording_url : JSVal String
  public_log_url : JSVal String
  start_timestamp : JSVal String
  end_timestamp : JSVal String
  disconnection_reason : JSVal String
  caller_number : JSVal String
  call_cost : JSVal CallCost
  call_analysis : JSVal CallAnalysis
deriving DecidableEq

/-- The Retell envelope request body `{event, call}`. -/
structure RetellBody : Type where
  event : JSVal String
  call : JSVal RetellCall
deriving DecidableEq

/-- `${call_analysis ? ... : ''}` in the Retell plain-text template
(`retell-webhook.js` lines 187-194). -/
def retellAnalysisSection (c : RetellCall) : String :=
  match c.call_analysis with
  | .val a =>
    "\n📊 Call Analysis\n--------------\nSummary: " ++
      jsInterp a.call_summary ++ "\nUser Sentiment: " ++
      jsInterp a.user_sentiment ++ "\nCall Successful: " ++
      (if a.call_successful then "Yes" else "No") ++ "\n" ++
      (if a.in_voicemail then "📱 Left Voicemail" else "") ++ "\n"
  | _ => ""

/-- `${call_cost ? ... : 'No cost information available'}` in the Retell
plain-text template (lines 198-203). -/
def retellCostSection (c : RetellCall) : String :=
  match c.call_cost with
  | .val cc =>
    "\nTotal Cost: " ++ formatCost cc.combined_cost ++
      "\nDuration Cost: " ++ formatCost cc.total_duration_unit_price ++
      "\nProduct Costs:\n" ++
      String.intercalate "\n"
        (cc.product_costs.map
          (fun cost => "- " ++ cost.product ++ ": " ++ formatCost cost.cost)) ++
      "\n"
  | _ => "No cost information available"

/-- `${transcript ? ... : ''}` in the Retell plain-text template
(lines 205-209). -/
def retellTranscriptSection (c : RetellCall) : String :=
  if strTruthy c.transcript then
    "\n📝 Transcript\n-----------\n" ++ jsInterp c.transcript ++ "\n"
  else ""

/-- `formatEmailContent` of `retell-webhook.js` revision 1
(lines 156-219). -/
def retellFormatEmailContent (env : Env) (c : RetellCall) : String :=
  "\n📞 Call Summary\n==============\n\n📋 Call Details\n--------------\n" ++
  "From: " ++ optInterp env.gmailEmail ++ "\n" ++
  "Call ID: " ++ jsInterp c.call_id ++ "\n" ++
  "Type: " ++ jsInterp c.call_type ++ "\n" ++
  "Status: " ++ jsInterp c.call_status ++ "\n" ++
  "Duration: " ++ formatDuration c.duration_ms ++ "\n" ++
  "Started: " ++ formatTimestamp env c.start_timestamp ++ "\n" ++
  "Ended: " ++ formatTimestamp env c.end_timestamp ++ "\n" ++
  "Disconnection Reason: " ++ jsOr c.disconnection_reason "Not specified" ++
  "\n\n" ++
  retellAnalysisSection c ++ "\n\n💰 Cost Breakdown\n---------------\n" ++
  retellCostSection c ++ "\n\n" ++
  retellTranscriptSection c ++ "\n\n🔗 Links\n-------\n" ++
  (if strTruthy c.recording_url then
    "Recording: " ++ jsInterp c.recording_url else "") ++ "\n" ++
  (if strTruthy c.public_log_url then
    "Call Log: " ++ jsInterp c.public_log_url else "") ++
  "\n\n---\nThis is an automated message from your Retell Voice Agent.\n"

/-- `${call_analysis ? ... : ''}` in the Retell HTML template
(lines 330-338). -/
def retellAnalysisSectionHtml (c : RetellCall) : String :=
  match c.call_analysis with
  | .val a =>
    "\n      <div style=\"background: #f8f9fa; padding: 15px; border-radius: 5px; margin-bottom: 20px;\">\n        <h2 style=\"color: #34495e;\">📊 Call Analysis</h2>\n        <p><strong>Summary:</strong> " ++
      jsInterp a.call_summary ++
      "</p>\n        <p><strong>User Sentiment:</strong> " ++
      jsInterp a.user_sentiment ++
      "</p>\n        <p><strong>Call Successful:</strong> " ++
      (if a.call_successful then "Yes" else "No") ++ "</p>\n        " ++
      (if a.in_voicemail then "<p><strong>📱 Left Voicemail</strong></p>"
        else "") ++
      "\n      </div>\n      "
  | _ => ""

/-- `${call_cost ? ... : ''}` in the Retell HTML template (lines 340-350). -/
def retellCostSectionHtml (c : RetellCall) : String :=
  match c.call_cost with
  | .val cc =>
    "\n      <div style=\"background: #f8f9fa; padding: 15px; border-radius: 5px; margin-bottom: 20px;\">\n        <h2 style=\"color: #34495e;\">💰 Cost Breakdown</h2>\n        <p><strong>Total Cost:</strong> " ++
      formatCost cc.combined_cost ++
      "</p>\n        <p><strong>Duration Cost:</strong> " ++
      formatCost cc.total_duration_unit_price ++
      "</p>\n        <h3>Product Costs:</h3>\n        <ul>\n          " ++
      String.join
        (cc.product_costs.map
          (fun cost =>
            "<li>" ++ cost.product ++ ": " ++ formatCost cost.cost ++ "</li>")) ++
      "\n        </ul>\n      </div>\n      "
  | _ => ""

/-- `${transcript ? ... : ''}` in the Retell HTML template (lines 352-357). -/
def retellTranscriptSectionHtml (c : RetellCall) : String :=
  if strTruthy c.transcript then
    "\n      <div style=\"background: #f8f9fa; padding: 15px; border-radius: 5px; margin-bottom: 20px;\">\n        <h2 style=\"color: #34495e;\">📝 Transcript</h2>\n        <pre style=\"white-space: pre-wrap;\">" ++
      jsInterp c.transcript ++ "</pre>\n      </div>\n      "
  else ""

/-- `formatEmailContentHtml` of `retell-webhook.js` revision 1
(lines 298-369). -/
def retellFormatEmailContentHtml (env : Env) (c : RetellCall) : String :=
  "\n    <div style=\"font-family: Arial, sans-serif; max-width: 600px; margin: 0 auto;\">\n      <h1 style=\"color: #2c3e50;\">📞 Call Summary</h1>\n      \n      <div style=\"background: #f8f9fa; padding: 15px; border-radius: 5px; margin-bottom: 20px;\">\n        <h2 style=\"color: #34495e;\">📋 Call Details</h2>\n        <p><strong>From:</strong> " ++
  optInterp env.gmailEmail ++ "</p>\n        <p><strong>Call ID:</strong> " ++
  jsInterp c.call_id ++ "</p>\n        <p><strong>Type:</strong> " ++
  jsInterp c.call_type ++ "</p>\n        <p><strong>Status:</strong> " ++
  jsInterp c.call_status ++ "</p>\n        <p><strong>Duration:</strong> " ++
  formatDuration c.duration_ms ++ "</p>\n        <p><strong>Started:</strong> " ++
  formatTimestamp env c.start_timestamp ++
  "</p>\n        <p><strong>Ended:</strong> " ++
  formatTimestamp env c.end_timestamp ++
  "</p>\n        <p><strong>Disconnection Reason:</strong> " ++
  jsOr c.disconnection_reason "Not specified" ++
  "</p>\n      </div>\n\n      " ++
  retellAnalysisSectionHtml c ++ "\n\n      " ++
  retellCostSectionHtml c ++ "\n\n      " ++
  retellTranscriptSectionHtml c ++
  "\n\n      <div style=\"background: #f8f9fa; padding: 15px; border-radius: 5px;\">\n        <h2 style=\"color: #34495e;\">🔗 Links</h2>\n        " ++
  (if strTruthy c.recording_url then
    "<p><a href=\"" ++ jsInterp c.recording_url ++ "\">Recording</a></p>"
  else "") ++ "\n        " ++
  (if strTruthy c.public_log_url then
    "<p><a href=\"" ++ jsInterp c.public_log_url ++ "\">Call Log</a></p>"
  else "") ++
  "\n      </div>\n\n      <hr style=\"margin: 20px 0;\">\n      <p style=\"color: #7f8c8d; font-size: 12px;\">This is an automated message from your Retell Voice Agent.</p>\n    </div>\n  "

/-- `sendEmail` of `retell-webhook.js` revision 1 (lines 222-295): same
flow as the part_000 `sendEmail`, with `call.caller_number` as the lookup
key and the Retell renderers. -/
def retellSendEmail (env : Env) (c : RetellCall)
    (dir : Except String (List Contact))
    (transport : Except String MailInfo) : SendResult :=
  let contacts : List Contact := match dir with
    | .ok cs => cs
    | .error _ => []
  let recipientEmail := resolveRecipient env.defaultEmail c.caller_number contacts
  if recipientEmail = "" ∨ ¬ recipientEmail.contains '@' then
    ⟨.error "Invalid recipient email address", none⟩
  else if ¬ gmailConfigOk env then
    ⟨.error "Invalid Gmail configuration", none⟩
  else
    let msg : MailMsg :=
      ⟨optInterp env.gmailEmail, recipientEmail,
        "Call Summary - " ++ jsInterp c.call_id,
        retellFormatEmailContent env c,
        some (retellFormatEmailContentHtml env c)⟩
    match transport with
    | .ok info => ⟨.ok info, some msg⟩
    | .error e => ⟨.error e, some msg⟩

/-- The `retell-webhook.js` revision-1 handler (lines 371-546): GET →
200 usage; other non-POST → 405; missing `event`/`call` → 400; events
other than `call_ended`/`call_analyzed` → 200 "received but not
processed"; otherwise `sendEmail`. -/
def retellHandler (env : Env) (method : String) (body : RetellBody)
    (dir : Except String (List Contact))
    (transport : Except String MailInfo) : HandlerResult :=
  if method = "GET" then ⟨.usage, none⟩
  else if method ≠ "POST" then ⟨.methodNotAllowed, none⟩
  else if ¬ strTruthy body.event then ⟨.missingFields, none⟩
  else match body.call with
  | .val c =>
    if body.event ≠ JSVal.val "call_ended" ∧
        body.event ≠ JSVal.val "call_analyzed" then
      ⟨.notProcessed, none⟩
    else
      let r := retellSendEmail env c dir transport
      match r.outcome with
      | .ok info => ⟨.emailSent info, r.sent⟩
      | .error e => ⟨.emailFailed e, r.sent⟩
  | _ => ⟨.missingFields, none⟩

/-- The `call_metadata` object of the `retell-webhook.js` revision-2
handler. -/
structure CallMeta : Type where
  caller_number : JSVal String
  agent_number : JSVal String
  call_duration : JSVal Nat
  call_status : JSVal String
  call_id : JSVal String
deriving DecidableEq

/-- The revision-2 request body `{call_metadata}`. -/
structure MetaBody : Type where
  call_metadata : JSVal CallMeta
deriving DecidableEq

/-- The email body built by the revision-2 handler (lines 649-656). -/
def metadataEmailContent (m : CallMeta) (contactName : String) : String :=
  "\n      Call Summary:\n      Caller: " ++ contactName ++ " (" ++
    jsInterp m.caller_number ++ ")\n      Agent: " ++
    jsInterp m.agent_number ++ "\n      Duration: " ++
    jsInterpNat m.call_duration ++ " seconds\n      Status: " ++
    jsInterp m.call_status ++ "\n      Call ID: " ++
    jsInterp m.call_id ++ "\n    "

/-- The `retell-webhook.js` revision-2 handler (lines 587-700): any
non-POST → 405; missing `call_metadata` → 400; a failed directory read →
hard 500; no exact `phone` match → 404; otherwise send to the matched
contact; there is no completion-status filter. -/
def metadataHandler (env : Env) (method : String) (body : MetaBody)
    (dir : Except String (List PContact))
    (transport : Except String MailInfo) : HandlerResult :=
  if method ≠ "POST" then ⟨.methodNotAllowed, none⟩
  else match body.call_metadata with
  | .val m =>
    match dir with
    | .error _ => ⟨.dirFailed, none⟩
    | .ok contacts =>
      match contacts.find? (fun c => jsStrEq c.phone m.caller_number) with
      | none => ⟨.contactNotFound, none⟩
      | some contact =>
        let msg : MailMsg :=
          ⟨optInterp env.gmailEmail, contact.email,
            "Call Summary - " ++ jsInterp m.call_id,
            metadataEmailContent m contact.name, none⟩
        match transport with
        | .ok _ => ⟨.metaSent contact.name contact.email, some msg⟩
        | .error e => ⟨.emailFailed e, some msg⟩
  | _ => ⟨.missingFields, none⟩

/-- The `call` object of the `src/unnamed/part_001` handler. -/
structure P1Call : Type where
  call_id : JSVal String
  call_type : JSVal String
  call_status : JSVal String
  duration_ms : JSVal Nat
  transcript : JSVal String
  recording_url : JSVal String
  public_log_url : JSVal String
deriving DecidableEq

/-- The `src/unnamed/part_001` request body `{event, call}`. -/
structure P1Body : Type where
  event : JSVal String
  call : JSVal P1Call
deriving DecidableEq

/-- The email body built by the `part_001` handler (lines 183-194). -/
def p1EmailContent (c : P1Call) : String :=
  "\n      Call Summary:\n      Call ID: " ++ jsInterp c.call_id ++
    "\n      Type: " ++ jsInterp c.call_type ++
    "\n      Status: " ++ jsInterp c.call_status ++
    "\n      Duration: " ++ formatDuration c.duration_ms ++
    "\n      \n      " ++
    (if strTruthy c.transcript then
      "Transcript:\n" ++ jsInterp c.transcript ++ "\n" else "") ++
    "\n      \n      " ++
    (if strTruthy c.recording_url then
      "Recording: " ++ jsInterp c.recording_url ++ "\n" else "") ++
    "\n      " ++
    (if strTruthy c.public_log_url then
      "Call Log: " ++ jsInterp c.public_log_url ++ "\n" else "") ++
    "\n    "

/-- The `src/unnamed/part_001` handler (lines 50-251): GET → 200 usage;
other non-POST → 405; missing `event`/`call` → 400; events other than
`call_ended` → 200 "received but not processed"; a failed directory read
→ hard 500; an empty directory → 500; otherwise send to the first
contact. -/
def part001Handler (env : Env) (method : String) (body : P1Body)
    (dir : Except String (List Contact))
    (transport : Except String MailInfo) : HandlerResult :=
  if method = "GET" then ⟨.usage, none⟩
  else if method ≠ "POST" then ⟨.methodNotAllowed, none⟩
  else if ¬ strTruthy body.event then ⟨.missingFields, none⟩
  else match body.call with
  | .val c =>
    if body.event ≠ JSVal.val "call_ended" then ⟨.notProcessed, none⟩
    else match dir with
    | .error _ => ⟨.dirFailed, none⟩
    | .ok contacts =>
      match contacts.head? with
      | none => ⟨.noContacts, none⟩
      | some defaultContact =>
        let msg : MailMsg :=
          ⟨optInterp env.gmailEmail, defaultContact.email,
            "Call Summary - " ++ jsInterp c.call_id,
            p1EmailContent c, none⟩
        match transport with
        | .ok _ => ⟨.p1Sent defaultContact.name defaultContact.email, some msg⟩
        | .error e => ⟨.emailFailed e, some msg⟩
  | _ => ⟨.missingFields, none⟩

end VoizMate

namespace VoizMate

/-- C1: the claim says contact resolution strips non-digit characters
from both sides before comparing, so a contact stored as
`"+1 (555) 123-4567"` matches caller id `"5551234567"`.  It is false:
the code compares the raw strings with `===`, so that directory entry
does not match and the resolver returns the default recipient. -/
theorem c1_counterexample :
    resolveRecipient "default@example.com" (JSVal.val "5551234567")
      [⟨"Bob", "+1 (555) 123-4567", "bob@x.com"⟩] = "default@example.com" ∧
    "default@example.com" ≠ "bob@x.com" :=
  ⟨rfl, by decide⟩

/-- C1 (amended): contact resolution compares the stored `number` and the
caller id by exact string equality with no normalization; the first
contact whose raw number equals the caller id is chosen (its email when
truthy, the default otherwise), and when no entry's raw number equals the
caller id the default recipient is returned. -/
theorem c1_exact_match (defaultEmail s : String) (contact : Contact)
    (contacts noMatch : List Contact) (hs : s ≠ "")
    (hfind : contacts.find? (fun c => jsStrEq c.number (JSVal.val s)) = some contact)
    (hnone : noMatch.find? (fun c => jsStrEq c.number (JSVal.val s)) = none) :
    resolveRecipient defaultEmail (JSVal.val s) contacts =
      (if contact.email ≠ "" then contact.email else defaultEmail) ∧
    resolveRecipient defaultEmail (JSVal.val s) noMatch = defaultEmail := by
  constructor
  · obtain ⟨a, as, rfl⟩ : ∃ a as, contacts = a :: as := by
      cases contacts with
      | nil => simp [List.find?] at hfind
      | cons a as => exact ⟨a, as, rfl⟩
    simp [resolveRecipient, strTruthy, hs, hfind]
  · cases noMatch with
    | nil => simp [resolveRecipient]
    | cons a as => simp [resolveRecipient, strTruthy, hs, hnone]

/-- C1 witness: a directory whose entry stores the caller id verbatim
does match, and one storing a punctuated variant does not. -/
theorem c1_exact_match_witness :
    resolveRecipient "default@example.com" (JSVal.val "5551234567")
      [⟨"Bob", "5551234567", "bob@x.com"⟩] =
      (if ("bob@x.com" : String) ≠ "" then "bob@x.com" else "default@example.com") ∧
    resolveRecipient "default@example.com" (JSVal.val "5551234567")
      [⟨"Bob", "+1 (555) 123-4567", "bob@x.com"⟩] = "default@example.com" :=
  c1_exact_match "default@example.com" "5551234567" ⟨"Bob", "5551234567", "bob@x.com"⟩
    [⟨"Bob", "5551234567", "bob@x.com"⟩] [⟨"Bob", "+1 (555) 123-4567", "bob@x.com"⟩]
    (by decide) (by decide) (by decide)

/-- C2 (amended): the part_000 `sendEmail` treats a failed directory read
exactly like an empty directory (so resolution falls back to the default
recipient and the request is not aborted), but the part_001 handler and
the `call_metadata` revision abort the request with a 500 response when
the directory cannot be read. -/
theorem c2_directory_policy :
    (∀ (env : Env) (call : VapiCall) (e : String) (t : Except String MailInfo),
      sendEmail env call (Except.error e) t = sendEmail env call (Except.ok []) t) ∧
    (∀ (d : String) (caller : JSVal String), resolveRecipient d caller [] = d) ∧
    (∀ (env : Env) (c : P1Call) (e : String) (t : Except String MailInfo),
      part001Handler env "POST" ⟨JSVal.val "call_ended", JSVal.val c⟩
        (Except.error e) t = ⟨Resp.dirFailed, none⟩) ∧
    (∀ (env : Env) (m : CallMeta) (e : String) (t : Except String MailInfo),
      metadataHandler env "POST" ⟨JSVal.val m⟩ (Except.error e) t =
        ⟨Resp.dirFailed, none⟩) ∧
    Resp.dirFailed.status = 500 := by
  refine ⟨fun _ _ _ _ => rfl, ?_, fun _ _ _ _ => rfl, fun _ _ _ _ => rfl, rfl⟩
  intro d caller
  simp [resolveRecipient]

/-- C2: the claim says every handler logs a directory failure and
proceeds with an empty directory, never aborting the request.  It is
false: the part_001 handler answers this completed-call request with a
500 "Failed to read contacts file" response when the read fails. -/
theorem c2_counterexample :
    part001Handler ⟨some "id", some "sec", some "tok", some "gm@x.com", "d@x.com",
        fun _ => "X"⟩
      "POST"
      ⟨JSVal.val "call_ended",
        JSVal.val ⟨JSVal.val "c1", JSVal.val "web_call", JSVal.val "ended",
          JSVal.val 30000, .undef, .undef, .undef⟩⟩
      (Except.error "ENOENT") (Except.ok ⟨"m1", ["a@x.com"], []⟩) =
      ⟨Resp.dirFailed, none⟩ ∧
    Resp.dirFailed.status = 500 :=
  ⟨rfl, rfl⟩

/-- C3: the claim says every POST whose status/event is outside the
completion set gets a 200 "received but not processed" response with no
`sendMail` call.  It is false for the `call_metadata` revision, which has
no completion filter: a `call_status` of `"in-progress"` still resolves
the contact and invokes `sendMail`. -/
theorem c3_counterexample :
    ((metadataHandler ⟨some "id", some "sec", some "tok", some "gm@x.com", "d@x.com",
        fun _ => "X"⟩
      "POST"
      ⟨JSVal.val ⟨JSVal.val "5551234567", JSVal.val "5559990000", JSVal.val 65,
        JSVal.val "in-progress", JSVal.val "c1"⟩⟩
      (Except.ok [⟨"Bob", "5551234567", "bob@x.com"⟩])
      (Except.ok ⟨"m1", ["bob@x.com"], []⟩)).sent).isSome = true :=
  rfl

/-- C3 (amended): the part_000 handler short-circuits any truthy status
other than `"completed"`, and the part_001 handler any truthy event other
than `"call_ended"`, to a 200 "received but not processed" response with
no mail dispatch; the retell revision-1 handler does the same for events
outside `"call_ended"`/`"call_analyzed"`; the `call_metadata` revision
applies no such filter. -/
theorem c3_completion_filter :
    (∀ (env : Env) (call : VapiCall) (dir : Except String (List Contact))
      (t : Except String MailInfo), strTruthy call.id = true →
      strTruthy call.status = true → call.status ≠ JSVal.val "completed" →
      vapiHandler env "POST" call dir t = ⟨Resp.notProcessed, none⟩) ∧
    (∀ (env : Env) (body : RetellBody) (dir : Except String (List Contact))
      (t : Except String MailInfo), strTruthy body.event = true →
      body.event ≠ JSVal.val "call_ended" → body.event ≠ JSVal.val "call_analyzed" →
      objTruthy body.call = true →
      retellHandler env "POST" body dir t = ⟨Resp.notProcessed, none⟩) ∧
    (∀ (env : Env) (body : P1Body) (dir : Except String (List Contact))
      (t : Except String MailInfo), strTruthy body.event = true →
      body.event ≠ JSVal.val "call_ended" → objTruthy body.call = true →
      part001Handler env "POST" body dir t = ⟨Resp.notProcessed, none⟩) ∧
    Resp.notProcessed.status = 200 := by
  refine ⟨?_, ?_, ?_, rfl⟩
  · intro env call dir t h1 h2 h3
    simp [vapiHandler, h1, h2, h3]
  · intro env body dir t h1 h2 h3 h4
    cases hc : body.call with
    | val c => simp [retellHandler, h1, h2, h3, hc]
    | undef => rw [hc] at h4; simp [objTruthy] at h4
    | null => rw [hc] at h4; simp [objTruthy] at h4
  · intro env body dir t h1 h2 h3
    cases hc : body.call with
    | val c => simp [part001Handler, h1, h2, hc]
    | undef => rw [hc] at h3; simp [objTruthy] at h3
    | null => rw [hc] at h3; simp [objTruthy] at h3

/-- C3 witness: an `"in-progress"` flat-shape call, a `"call_started"`
retell event and a `"call_started"` part_001 event all short-circuit. -/
theorem c3_completion_filter_witness :
    vapiHandler ⟨some "a", some "b", some "c", some "gm@x.com", "d@x.com", fun _ => "X"⟩
      "POST" ⟨JSVal.val "c1", JSVal.val "in-progress", .undef, .undef, .undef, .undef,
        .undef, .undef, .undef, .undef, .undef, .undef⟩
      (Except.ok []) (Except.ok ⟨"m", [], []⟩) = ⟨Resp.notProcessed, none⟩ ∧
    retellHandler ⟨some "a", some "b", some "c", some "gm@x.com", "d@x.com", fun _ => "X"⟩
      "POST" ⟨JSVal.val "call_started",
        JSVal.val ⟨JSVal.val "c1", .undef, .undef, .undef, .undef, .undef, .undef,
          .undef, .undef, .undef, .undef, .undef, .undef⟩⟩
      (Except.ok []) (Except.ok ⟨"m", [], []⟩) = ⟨Resp.notProcessed, none⟩ ∧
    part001Handler ⟨some "a", some "b", some "c", some "gm@x.com", "d@x.com", fun _ => "X"⟩
      "POST" ⟨JSVal.val "call_started",
        JSVal.val ⟨JSVal.val "c1", .undef, .undef, .undef, .undef, .undef, .undef⟩⟩
      (Except.ok []) (Except.ok ⟨"m", [], []⟩) = ⟨Resp.notProcessed, none⟩ :=
  ⟨c3_completion_filter.1 _ _ _ _ (by decide) (by decide) (by decide),
    c3_completion_filter.2.1 _ _ _ _ (by decide) (by decide) (by decide) (by decide),
    c3_completion_filter.2.2.1 _ _ _ _ (by decide) (by decide) (by decide)⟩

end VoizMate

namespace VoizMate

/-- C4: the claim says every absent optional field — including the
duration and the start/end timestamps — has its line fully omitted and is
never rendered as an error value.  It is false: the header of the
plain-text report renders `Duration:`, `Started:` and `Ended:`
unconditionally, and with `duration` absent the output contains the line
`Duration: NaNm NaNs`. -/
theorem c4_counterexample :
    (⟨JSVal.val "c1", JSVal.val "completed", .undef, .undef, .undef, .undef, .undef,
      .undef, .undef, .undef, .undef, .undef⟩ : VapiCall).duration = JSVal.undef ∧
    formatEmailContent
      ⟨some "id", some "sec", some "tok", some "gm@x.com", "d@x.com", fun _ => "X"⟩
      ⟨JSVal.val "c1", JSVal.val "completed", .undef, .undef, .undef, .undef, .undef,
        .undef, .undef, .undef, .undef, .undef⟩ =
      "\n📞 Call Summary\n==============\n\n📋 Call Details\n--------------\nFrom: gm@x.com\nCaller: Unknown\nRecipient: Unknown\nCall ID: c1\nStatus: completed\nDuration: NaNm NaNs\nStarted: X\nEnded: X\n\n\n\n\n\n\n\n\n\n\n---\nThis is an automated message from your Vapi AI Assistant.\n" :=
  ⟨rfl, rfl⟩

/-- C4 (amended): in the part_000 renderers the summary, cost,
transcript, recording-URL and error parts are fully omitted (empty, no
header) when their field is falsy, and render with their header when
present, in both the plain-text and HTML output; but the duration and the
start/end timestamps belong to the unconditional header — the `Duration:`
line is always rendered, and an absent duration renders as
`"NaNm NaNs"`. -/
theorem c4_conditional_rendering (env : Env) (call : VapiCall) :
    (strTruthy call.summary = false → vapiSummarySection call = "") ∧
    (∀ s, call.summary = JSVal.val s → s ≠ "" →
      vapiSummarySection call = "\n📊 Call Summary\n--------------\n" ++ s ++ "\n") ∧
    (numTruthy call.cost = false → vapiCostSection call = "") ∧
    (strTruthy call.transcript = false → vapiTranscriptSection call = "") ∧
    (∀ s, call.transcript = JSVal.val s → s ≠ "" →
      vapiTranscriptSection call = "\n📝 Transcript\n-----------\n" ++ s ++ "\n") ∧
    (strTruthy call.recordingUrl = false → vapiRecordingSection call = "") ∧
    (strTruthy call.error = false → vapiErrorLine call = "") ∧
    (strTruthy call.summary = false → vapiSummarySectionHtml call = "") ∧
    (numTruthy call.cost = false → vapiCostSectionHtml call = "") ∧
    (strTruthy call.transcript = false → vapiTranscriptSectionHtml call = "") ∧
    (strTruthy call.recordingUrl = false → vapiRecordingSectionHtml call = "") ∧
    (strTruthy call.error = false → vapiErrorLineHtml call = "") ∧
    (∃ p q : String, formatEmailContent env call =
      p ++ "Duration: " ++ formatDuration call.duration ++ "\n" ++ q) ∧
    (∃ p q : String, formatEmailContentHtml env call =
      p ++ "</p>\n        <p><strong>Duration:</strong> " ++
        formatDuration call.duration ++
        "</p>\n        <p><strong>Started:</strong> " ++ q) ∧
    formatDuration JSVal.undef = "NaNm NaNs" := by
  have costEmpty : numTruthy call.cost = false → vapiCostSection call = "" := by
    intro h
    cases hc : call.cost with
    | val c => rw [hc] at h; simp [numTruthy] at h; simp [vapiCostSection, hc, h]
    | undef => simp [vapiCostSection, hc]
    | null => simp [vapiCostSection, hc]
  have costEmptyHtml : numTruthy call.cost = false → vapiCostSectionHtml call = "" := by
    intro h
    cases hc : call.cost with
    | val c => rw [hc] at h; simp [numTruthy] at h; simp [vapiCostSectionHtml, hc, h]
    | undef => simp [vapiCostSectionHtml, hc]
    | null => simp [vapiCostSectionHtml, hc]
  refine ⟨?_, ?_, costEmpty, ?_, ?_, ?_, ?_, ?_, costEmptyHtml, ?_, ?_, ?_, ?_, ?_, rfl⟩
  · intro h; simp [vapiSummarySection, h]
  · intro s hs hne; simp [vapiSummarySection, strTruthy, hs, hne, jsInterp]
  · intro h; simp [vapiTranscriptSection, h]
  · intro s hs hne; simp [vapiTranscriptSection, strTruthy, hs, hne, jsInterp]
  · intro h; simp [vapiRecordingSection, h]
  · intro h; simp [vapiErrorLine, h]
  · intro h; simp [vapiSummarySectionHtml, h]
  · intro h; simp [vapiTranscriptSectionHtml, h]
  · intro h; simp [vapiRecordingSectionHtml, h]
  · intro h; simp [vapiErrorLineHtml, h]
  · refine ⟨"\n📞 Call Summary\n==============\n\n📋 Call Details\n--------------\n" ++
      "From: " ++ optInterp env.gmailEmail ++ "\n" ++
      "Caller: " ++ jsOr call.«from» "Unknown" ++ "\n" ++
      "Recipient: " ++ jsOr call.«to» "Unknown" ++ "\n" ++
      "Call ID: " ++ jsInterp call.id ++ "\n" ++
      "Status: " ++ jsInterp call.status ++ "\n",
      "Started: " ++ formatTimestamp env call.startTime ++ "\n" ++
      "Ended: " ++ formatTimestamp env call.endTime ++ "\n" ++
      vapiErrorLine call ++ "\n\n" ++
      vapiSummarySection call ++ "\n\n" ++
      vapiCostSection call ++ "\n\n" ++
      vapiTranscriptSection call ++ "\n\n" ++
      vapiRecordingSection call ++ "\n\n" ++
      "---\nThis is an automated message from your Vapi AI Assistant.\n", ?_⟩
    simp only [formatEmailContent, String.append_assoc]
  · refine ⟨"\n    <div style=\"font-family: Arial, sans-serif; max-width: 600px; margin: 0 auto;\">\n      <h1 style=\"color: #2c3e50;\">📞 Call Summary</h1>\n      \n      <div style=\"background: #f8f9fa; padding: 15px; border-radius: 5px; margin-bottom: 20px;\">\n        <h2 style=\"color: #34495e;\">📋 Call Details</h2>\n        <p><strong>From:</strong> " ++
      optInterp env.gmailEmail ++ "</p>\n        <p><strong>Caller:</strong> " ++
      jsOr call.«from» "Unknown" ++ "</p>\n        <p><strong>Recipient:</strong> " ++
      jsOr call.«to» "Unknown" ++ "</p>\n        <p><strong>Call ID:</strong> " ++
      jsInterp call.id ++ "</p>\n        <p><strong>Status:</strong> " ++
      jsInterp call.status,
      formatTimestamp env call.startTime ++
      "</p>\n        <p><strong>Ended:</strong> " ++
      formatTimestamp env call.endTime ++ "</p>\n        " ++
      vapiErrorLineHtml call ++ "\n      </div>\n\n      " ++
      vapiSummarySectionHtml call ++ "\n\n      " ++
      vapiCostSectionHtml call ++ "\n\n      " ++
      vapiTranscriptSectionHtml call ++ "\n\n      " ++
      vapiRecordingSectionHtml call ++
      "\n\n      <hr style=\"margin: 20px 0;\">\n      <p style=\"color: #7f8c8d; font-size: 12px;\">This is an automated message from your Vapi AI Assistant.</p>\n    </div>\n  ", ?_⟩
    simp only [formatEmailContentHtml, String.append_assoc]

/-- C4 witness: with every optional field absent and a truthy transcript,
the conditional sections evaluate as claimed. -/
theorem c4_conditional_rendering_witness :
    vapiSummarySection ⟨JSVal.val "c1", JSVal.val "completed", .undef, .undef, .undef,
      .undef, .undef, .undef, JSVal.val "hello", .undef, .undef, .undef⟩ = "" ∧
    vapiCostSection ⟨JSVal.val "c1", JSVal.val "completed", .undef, .undef, .undef,
      .undef, .undef, .undef, JSVal.val "hello", .undef, .undef, .undef⟩ = "" ∧
    vapiTranscriptSection ⟨JSVal.val "c1", JSVal.val "completed", .undef, .undef, .undef,
      .undef, .undef, .undef, JSVal.val "hello", .undef, .undef, .undef⟩ =
      "\n📝 Transcript\n-----------\n" ++ "hello" ++ "\n" := by
  obtain ⟨h1, -, h3, -, h5, -⟩ :=
    c4_conditional_rendering
      ⟨some "id", some "sec", some "tok", some "gm@x.com", "d@x.com", fun _ => "X"⟩
      ⟨JSVal.val "c1", JSVal.val "completed", .undef, .undef, .undef,
        .undef, .undef, .undef, JSVal.val "hello", .undef, .undef, .undef⟩
  exact ⟨h1 (by decide), h3 (by decide), h5 "hello" rfl (by decide)⟩

/-- C5: a POST body missing its shape-defining required fields —
`id`/`status` for the flat shape, `event`/`call` for the envelope shape,
`call_metadata` for the metadata shape — yields a 400 response and no
mail dispatch, in every revision. -/
theorem c5_required_fields :
    (∀ (env : Env) (call : VapiCall) (dir : Except String (List Contact))
      (t : Except String MailInfo),
      (strTruthy call.id && strTruthy call.status) = false →
      vapiHandler env "POST" call dir t = ⟨Resp.missingFields, none⟩) ∧
    (∀ (env : Env) (body : RetellBody) (dir : Except String (List Contact))
      (t : Except String MailInfo),
      (strTruthy body.event && objTruthy body.call) = false →
      retellHandler env "POST" body dir t = ⟨Resp.missingFields, none⟩) ∧
    (∀ (env : Env) (body : MetaBody) (dir : Except String (List PContact))
      (t : Except String MailInfo), objTruthy body.call_metadata = false →
      metadataHandler env "POST" body dir t = ⟨Resp.missingFields, none⟩) ∧
    (∀ (env : Env) (body : P1Body) (dir : Except String (List Contact))
      (t : Except String MailInfo),
      (strTruthy body.event && objTruthy body.call) = false →
      part001Handler env "POST" body dir t = ⟨Resp.missingFields, none⟩) ∧
    Resp.missingFields.status = 400 := by
  refine ⟨?_, ?_, ?_, ?_, rfl⟩
  · intro env call dir t h
    simp [vapiHandler, h]
  · intro env body dir t h
    rw [Bool.and_eq_false_iff] at h
    rcases h with h | h
    · simp [retellHandler, h]
    · cases hc : body.call with
      | val c => rw [hc] at h; simp [objTruthy] at h
      | undef => by_cases he : strTruthy body.event <;> simp [retellHandler, he, hc]
      | null => by_cases he : strTruthy body.event <;> simp [retellHandler, he, hc]
  · intro env body dir t h
    cases hc : body.call_metadata with
    | val m => rw [hc] at h; simp [objTruthy] at h
    | undef => simp [metadataHandler, hc]
    | null => simp [metadataHandler, hc]
  · intro env body dir t h
    rw [Bool.and_eq_false_iff] at h
    rcases h with h | h
    · simp [part001Handler, h]
    · cases hc : body.call with
      | val c => rw [hc] at h; simp [objTruthy] at h
      | undef => by_cases he : strTruthy body.event <;> simp [part001Handler, he, hc]
      | null => by_cases he : strTruthy body.event <;> simp [part001Handler, he, hc]

/-- C5 witness: bodies with all shape-defining fields absent get 400 in
every revision. -/
theorem c5_required_fields_witness :
    vapiHandler ⟨some "a", some "b", some "c", some "gm@x.com", "d@x.com", fun _ => "X"⟩
      "POST" ⟨.undef, .undef, .undef, .undef, .undef, .undef, .undef, .undef, .undef,
        .undef, .undef, .undef⟩
      (Except.ok []) (Except.ok ⟨"m", [], []⟩) = ⟨Resp.missingFields, none⟩ ∧
    retellHandler ⟨some "a", some "b", some "c", some "gm@x.com", "d@x.com", fun _ => "X"⟩
      "POST" ⟨.undef, .undef⟩ (Except.ok []) (Except.ok ⟨"m", [], []⟩) =
      ⟨Resp.missingFields, none⟩ ∧
    metadataHandler ⟨some "a", some "b", some "c", some "gm@x.com", "d@x.com", fun _ => "X"⟩
      "POST" ⟨.undef⟩ (Except.ok []) (Except.ok ⟨"m", [], []⟩) =
      ⟨Resp.missingFields, none⟩ ∧
    part001Handler ⟨some "a", some "b", some "c", some "gm@x.com", "d@x.com", fun _ => "X"⟩
      "POST" ⟨.undef, .undef⟩ (Except.ok []) (Except.ok ⟨"m", [], []⟩) =
      ⟨Resp.missingFields, none⟩ :=
  ⟨c5_required_fields.1 _ _ _ _ (by decide),
    c5_required_fields.2.1 _ _ _ _ (by decide),
    c5_required_fields.2.2.1 _ _ _ _ (by decide),
    c5_required_fields.2.2.2.1 _ _ _ _ (by decide)⟩

/-- C6: the claim says every method that is neither POST nor GET returns
405.  It is false for the part_000 handler, which answers an OPTIONS
request with a 200 CORS-preflight response. -/
theorem c6_counterexample :
    vapiHandler ⟨some "a", some "b", some "c", some "gm@x.com", "d@x.com", fun _ => "X"⟩
      "OPTIONS" ⟨JSVal.val "c1", JSVal.val "completed", .undef, .undef, .undef, .undef,
        .undef, .undef, .undef, .undef, .undef, .undef⟩
      (Except.ok []) (Except.ok ⟨"m", [], []⟩) = ⟨Resp.preflight, none⟩ ∧
    Resp.preflight.status = 200 ∧ Resp.preflight.status ≠ 405 :=
  ⟨rfl, rfl, by decide⟩

/-- C6 (amended): every method other than POST, GET and OPTIONS yields a
405 response with no validation, lookup, rendering or dispatch, in every
revision; OPTIONS gets the same 405 in the retell-webhook and part_001
revisions, but the part_000 handler short-circuits OPTIONS to a 200
CORS-preflight response (equally without further processing). -/
theorem c6_method_policy :
    (∀ (env : Env) (call : VapiCall) (dir : Except String (List Contact))
      (t : Except String MailInfo) (m : String),
      m ≠ "GET" → m ≠ "POST" → m ≠ "OPTIONS" →
      vapiHandler env m call dir t = ⟨Resp.methodNotAllowed, none⟩) ∧
    (∀ (env : Env) (call : VapiCall) (dir : Except String (List Contact))
      (t : Except String MailInfo),
      vapiHandler env "OPTIONS" call dir t = ⟨Resp.preflight, none⟩) ∧
    (∀ (env : Env) (body : RetellBody) (dir : Except String (List Contact))
      (t : Except String MailInfo) (m : String), m ≠ "GET" → m ≠ "POST" →
      retellHandler env m body dir t = ⟨Resp.methodNotAllowed, none⟩) ∧
    (∀ (env : Env) (body : MetaBody) (dir : Except String (List PContact))
      (t : Except String MailInfo) (m : String), m ≠ "POST" →
      metadataHandler env m body dir t = ⟨Resp.methodNotAllowed, none⟩) ∧
    (∀ (env : Env) (body : P1Body) (dir : Except String (List Contact))
      (t : Except String MailInfo) (m : String), m ≠ "GET" → m ≠ "POST" →
      part001Handler env m body dir t = ⟨Resp.methodNotAllowed, none⟩) ∧
    Resp.methodNotAllowed.status = 405 := by
  refine ⟨?_, fun _ _ _ _ => rfl, ?_, ?_, ?_, rfl⟩
  · intro env call dir t m h1 h2 h3
    simp [vapiHandler, h1, h2, h3]
  · intro env body dir t m h1 h2
    simp [retellHandler, h1, h2]
  · intro env body dir t m h
    simp [metadataHandler, h]
  · intro env body dir t m h1 h2
    simp [part001Handler, h1, h2]

/-- C6 witness: a DELETE request yields 405 in every revision. -/
theorem c6_method_policy_witness :
    vapiHandler ⟨some "a", some "b", some "c", some "gm@x.com", "d@x.com", fun _ => "X"⟩
      "DELETE" ⟨JSVal.val "c1", JSVal.val "completed", .undef, .undef, .undef, .undef,
        .undef, .undef, .undef, .undef, .undef, .undef⟩
      (Except.ok []) (Except.ok ⟨"m", [], []⟩) = ⟨Resp.methodNotAllowed, none⟩ ∧
    retellHandler ⟨some "a", some "b", some "c", some "gm@x.com", "d@x.com", fun _ => "X"⟩
      "DELETE" ⟨.undef, .undef⟩ (Except.ok []) (Except.ok ⟨"m", [], []⟩) =
      ⟨Resp.methodNotAllowed, none⟩ ∧
    metadataHandler ⟨some "a", some "b", some "c", some "gm@x.com", "d@x.com", fun _ => "X"⟩
      "DELETE" ⟨.undef⟩ (Except.ok []) (Except.ok ⟨"m", [], []⟩) =
      ⟨Resp.methodNotAllowed, none⟩ ∧
    part001Handler ⟨some "a", some "b", some "c", some "gm@x.com", "d@x.com", fun _ => "X"⟩
      "DELETE" ⟨.undef, .undef⟩ (Except.ok []) (Except.ok ⟨"m", [], []⟩) =
      ⟨Resp.methodNotAllowed, none⟩ :=
  ⟨c6_method_policy.1 _ _ _ _ "DELETE" (by decide) (by decide) (by decide),
    c6_method_policy.2.2.1 _ _ _ _ "DELETE" (by decide) (by decide),
    c6_method_policy.2.2.2.1 _ _ _ _ "DELETE" (by decide),
    c6_method_policy.2.2.2.2.1 _ _ _ _ "DELETE" (by decide) (by decide)⟩

/-- C7: both part_000 renderers are pure functions of the call record and
the fixed process configuration: equal inputs give byte-identical
plain-text and HTML output. -/
theorem c7_deterministic (env : Env) (c c' : VapiCall) (h : c = c') :
    formatEmailContent env c = formatEmailContent env c' ∧
    formatEmailContentHtml env c = formatEmailContentHtml env c' := by
  subst h
  exact ⟨rfl, rfl⟩

/-- C7 witness: determinism at a concrete record. -/
theorem c7_deterministic_witness :
    formatEmailContent
      ⟨some "id", some "sec", some "tok", some "gm@x.com", "d@x.com", fun _ => "X"⟩
      ⟨JSVal.val "c1", JSVal.val "completed", .undef, .undef, JSVal.val 125000, .undef,
        .undef, .undef, JSVal.val "hi", .undef, .undef, .undef⟩ =
    formatEmailContent
      ⟨some "id", some "sec", some "tok", some "gm@x.com", "d@x.com", fun _ => "X"⟩
      ⟨JSVal.val "c1", JSVal.val "completed", .undef, .undef, JSVal.val 125000, .undef,
        .undef, .undef, JSVal.val "hi", .undef, .undef, .undef⟩ ∧
    formatEmailContentHtml
      ⟨some "id", some "sec", some "tok", some "gm@x.com", "d@x.com", fun _ => "X"⟩
      ⟨JSVal.val "c1", JSVal.val "completed", .undef, .undef, JSVal.val 125000, .undef,
        .undef, .undef, JSVal.val "hi", .undef, .undef, .undef⟩ =
    formatEmailContentHtml
      ⟨some "id", some "sec", some "tok", some "gm@x.com", "d@x.com", fun _ => "X"⟩
      ⟨JSVal.val "c1", JSVal.val "completed", .undef, .undef, JSVal.val 125000, .undef,
        .undef, .undef, JSVal.val "hi", .undef, .undef, .undef⟩ :=
  c7_deterministic _ _ _ rfl

end VoizMate

namespace VoizMate

/-- C8: `formatDuration` maps a millisecond count to
`"{minutes}m {seconds}s"` with `seconds = floor(ms/1000)` split at 60;
in particular `125000 ↦ "2m 5s"` and `0 ↦ "0m 0s"`. -/
theorem c8_formatDuration :
    formatDuration (JSVal.val 125000) = "2m 5s" ∧
    formatDuration (JSVal.val 0) = "0m 0s" ∧
    ∀ ms : Nat, formatDuration (JSVal.val ms) =
      toString (ms / 1000 / 60) ++ "m " ++ toString (ms / 1000 % 60) ++ "s" :=
  ⟨rfl, rfl, fun _ => rfl⟩

/-- C9: validation is truthiness-based — a flat-shape body whose `id` or
`status` is the empty string, an envelope body whose `call` is `null`,
and a metadata body whose `call_metadata` is `null` are all rejected with
400 and no mail dispatch, exactly as if the fields were absent. -/
theorem c9_falsy_validation :
    (∀ (env : Env) (call : VapiCall) (dir : Except String (List Contact))
      (t : Except String MailInfo), call.id = JSVal.val "" →
      vapiHandler env "POST" call dir t = ⟨Resp.missingFields, none⟩) ∧
    (∀ (env : Env) (call : VapiCall) (dir : Except String (List Contact))
      (t : Except String MailInfo), call.status = JSVal.val "" →
      vapiHandler env "POST" call dir t = ⟨Resp.missingFields, none⟩) ∧
    (∀ (env : Env) (body : RetellBody) (dir : Except String (List Contact))
      (t : Except String MailInfo), body.event = JSVal.val "" →
      retellHandler env "POST" body dir t = ⟨Resp.missingFields, none⟩) ∧
    (∀ (env : Env) (body : RetellBody) (dir : Except String (List Contact))
      (t : Except String MailInfo), body.call = JSVal.null →
      retellHandler env "POST" body dir t = ⟨Resp.missingFields, none⟩) ∧
    (∀ (env : Env) (body : MetaBody) (dir : Except String (List PContact))
      (t : Except String MailInfo), body.call_metadata = JSVal.null →
      metadataHandler env "POST" body dir t = ⟨Resp.missingFields, none⟩) ∧
    Resp.missingFields.status = 400 := by
  refine ⟨?_, ?_, ?_, ?_, ?_, rfl⟩
  · intro env call dir t h
    simp [vapiHandler, strTruthy, h]
  · intro env call dir t h
    have : (strTruthy call.id && strTruthy call.status) = false := by
      simp [strTruthy, h]
    simp [vapiHandler, this]
  · intro env body dir t h
    simp [retellHandler, strTruthy, h]
  · intro env body dir t h
    by_cases he : strTruthy body.event <;> simp [retellHandler, he, h]
  · intro env body dir t h
    simp [metadataHandler, h]

/-- C9 witness: empty-string `id` and `null` objects are rejected with
400 at concrete inputs. -/
theorem c9_falsy_validation_witness :
    vapiHandler ⟨some "a", some "b", some "c", some "gm@x.com", "d@x.com", fun _ => "X"⟩
      "POST" ⟨JSVal.val "", JSVal.val "completed", .undef, .undef, .undef, .undef,
        .undef, .undef, .undef, .undef, .undef, .undef⟩
      (Except.ok []) (Except.ok ⟨"m", [], []⟩) = ⟨Resp.missingFields, none⟩ ∧
    retellHandler ⟨some "a", some "b", some "c", some "gm@x.com", "d@x.com", fun _ => "X"⟩
      "POST" ⟨JSVal.val "call_ended", JSVal.null⟩ (Except.ok [])
      (Except.ok ⟨"m", [], []⟩) = ⟨Resp.missingFields, none⟩ ∧
    metadataHandler ⟨some "a", some "b", some "c", some "gm@x.com", "d@x.com", fun _ => "X"⟩
      "POST" ⟨JSVal.null⟩ (Except.ok []) (Except.ok ⟨"m", [], []⟩) =
      ⟨Resp.missingFields, none⟩ :=
  ⟨c9_falsy_validation.1 _ _ _ _ rfl,
    c9_falsy_validation.2.2.2.1 _ _ _ _ rfl,
    c9_falsy_validation.2.2.2.2.1 _ _ _ _ rfl⟩

/-- C10: a contact that matches the caller number but has a falsy email
makes the resolver fall back to the configured default recipient, exactly
as when no contact matches (the empty-directory case), with no error
raised at resolution. -/
theorem c10_emailless_contact (defaultEmail s : String)
    (contacts : List Contact) (contact : Contact) (hs : s ≠ "")
    (hfind : contacts.find? (fun c => jsStrEq c.number (JSVal.val s)) = some contact)
    (hemail : contact.email = "") :
    resolveRecipient defaultEmail (JSVal.val s) contacts = defaultEmail ∧
    resolveRecipient defaultEmail (JSVal.val s) contacts =
      resolveRecipient defaultEmail (JSVal.val s) [] := by
  obtain ⟨a, as, rfl⟩ : ∃ a as, contacts = a :: as := by
    cases contacts with
    | nil => simp [List.find?] at hfind
    | cons a as => exact ⟨a, as, rfl⟩
  constructor
  · simp [resolveRecipient, strTruthy, hs, hfind, hemail]
  · simp [resolveRecipient, strTruthy, hs, hfind, hemail]

/-- C10 witness: a matched contact with an empty email resolves to the
default recipient. -/
theorem c10_emailless_contact_witness :
    resolveRecipient "default@example.com" (JSVal.val "5551234567")
      [⟨"Bob", "5551234567", ""⟩] = "default@example.com" ∧
    resolveRecipient "default@example.com" (JSVal.val "5551234567")
      [⟨"Bob", "5551234567", ""⟩] =
      resolveRecipient "default@example.com" (JSVal.val "5551234567") [] :=
  c10_emailless_contact "default@example.com" "5551234567"
    [⟨"Bob", "5551234567", ""⟩] ⟨"Bob", "5551234567", ""⟩
    (by decide) (by decide) rfl

end VoizMate
